import Mathlib

/-!
Shallow embedding of `bolt/expm.py`: the scaling-and-squaring matrix
exponential with diagonal Padé approximants (Higham 2005/2009).

Matrices are `Matrix (Fin (n+1)) (Fin (n+1)) ℝ` (the data model fixes
dimension `n ≥ 1`); floating-point scalars are modelled as exact reals,
matching the stated collaborator contract of exact real arithmetic.
Fallible steps (`np.linalg.solve`, the input validation of
`_onenorm_matrix_power_nnm`) return `Except String`.
-/

namespace Bolt

/-- Square `n+1` by `n+1` real matrix (`n ≥ 1` in the data model). -/
abbrev Mat (n : ℕ) : Type := Matrix (Fin (n + 1)) (Fin (n + 1)) ℝ

/-- Value of `np.max` on a vector: the largest entry. -/
noncomputable def npMax {n : ℕ} (v : Fin (n + 1) → ℝ) : ℝ :=
  Finset.univ.sup' Finset.univ_nonempty v

/-- One-norm `_onenorm(A) = np.linalg.norm(A, 1)`: the maximum absolute column sum. -/
noncomputable def _onenorm {r c : ℕ} (A : Matrix (Fin (r + 1)) (Fin (c + 1)) ℝ) : ℝ :=
  Finset.univ.sup' Finset.univ_nonempty fun j => ∑ i, |A i j|

/-- Entrywise absolute value `abs(A)` of a matrix. -/
def matAbs {n : ℕ} (A : Mat n) : Mat n := fun i j => |A i j|

/-- The loop `for i in range(p): v = M.dot(v)` of `_onenorm_matrix_power_nnm`. -/
noncomputable def powerIter {n : ℕ} (M : Mat n) : ℕ → (Fin (n + 1) → ℝ) → Fin (n + 1) → ℝ
  | 0, v => v
  | p + 1, v => powerIter M p (M.mulVec v)

/-- Core of `_onenorm_matrix_power_nnm(A, p)` after input validation: start from the
ones vector, multiply by `M = A.T` exactly `p` times, return the max entry. -/
noncomputable def _onenorm_matrix_power_nnm {n : ℕ} (A : Mat n) (p : ℕ) : ℝ :=
  npMax (powerIter A.transpose p fun _ => 1)

/-- Checked `_onenorm_matrix_power_nnm(A, p)` with its input validation: `p` may be any
rational (Python float), `A` any 2-D `(r+1) × (c+1)` array.  Python raises
`ValueError` when `int(p) != p or p < 0`, and then when the shape is not
square; both are modelled as `Except.error`. -/
noncomputable def onenormMatrixPowerNNMChecked {r c : ℕ}
    (A : Matrix (Fin (r + 1)) (Fin (c + 1)) ℝ) (p : ℚ) : Except String ℝ :=
  if p.den ≠ 1 ∨ p < 0 then
    Except.error "expected non-negative integer p"
  else if h : r = c then
    Except.ok (_onenorm_matrix_power_nnm
      (fun i j => A i (Fin.cast (by rw [h]) j)) p.num.toNat)
  else
    Except.error "expected A to be like a square matrix"

/-- Correction term `_ell(A, m)`: the integer backward-error bound. -/
noncomputable def _ell {n : ℕ} (A : Mat n) (m : ℕ) : ℤ :=
  let abs_c_recip : ℝ := (Nat.choose (2 * m) m : ℝ) * (Nat.factorial (2 * m + 1) : ℝ)
  let u : ℝ := 2 ^ (-53 : ℤ)
  let A_abs_onenorm : ℝ := _onenorm_matrix_power_nnm (matAbs A) (2 * m + 1)
  if A_abs_onenorm = 0 then 0
  else
    let alpha : ℝ := A_abs_onenorm / (_onenorm A * abs_c_recip)
    let log2_alpha_div_u : ℝ := Real.logb 2 (alpha / u)
    max ⌈log2_alpha_div_u / (2 * m : ℝ)⌉ 0

/-- Cached power `A2 = A·A` of `_ExpmPadeHelper`. -/
noncomputable def A2 {n : ℕ} (A : Mat n) : Mat n := A * A

/-- Cached power `A4 = A2·A2`. -/
noncomputable def A4 {n : ℕ} (A : Mat n) : Mat n := A2 A * A2 A

/-- Cached power `A6 = A4·A2`. -/
noncomputable def A6 {n : ℕ} (A : Mat n) : Mat n := A4 A * A2 A

/-- Cached power `A8 = A6·A2`. -/
noncomputable def A8 {n : ℕ} (A : Mat n) : Mat n := A6 A * A2 A

/-- Cached power `A10 = A4·A6`. -/
noncomputable def A10 {n : ℕ} (A : Mat n) : Mat n := A4 A * A6 A

/-- Bound `d4_tight = _onenorm(A4) ** (1/4)`. -/
noncomputable def d4_tight {n : ℕ} (A : Mat n) : ℝ := _onenorm (A4 A) ^ ((1 : ℝ) / 4)

/-- Bound `d6_tight = _onenorm(A6) ** (1/6)`. -/
noncomputable def d6_tight {n : ℕ} (A : Mat n) : ℝ := _onenorm (A6 A) ^ ((1 : ℝ) / 6)

/-- Bound `d8_tight = _onenorm(A8) ** (1/8)`. -/
noncomputable def d8_tight {n : ℕ} (A : Mat n) : ℝ := _onenorm (A8 A) ^ ((1 : ℝ) / 8)

/-- Bound `d10_tight = _onenorm(A10) ** (1/10)`. -/
noncomputable def d10_tight {n : ℕ} (A : Mat n) : ℝ := _onenorm (A10 A) ^ ((1 : ℝ) / 10)

/-- Loose bound `d4_loose` returns `self.d4_tight`. -/
noncomputable def d4_loose {n : ℕ} (A : Mat n) : ℝ := d4_tight A

/-- Loose bound `d6_loose` returns `self.d6_tight`. -/
noncomputable def d6_loose {n : ℕ} (A : Mat n) : ℝ := d6_tight A

/-- Loose bound `d8_loose` returns `self.d8_tight`. -/
noncomputable def d8_loose {n : ℕ} (A : Mat n) : ℝ := d8_tight A

/-- Loose bound `d10_loose` returns `self.d10_tight`. -/
noncomputable def d10_loose {n : ℕ} (A : Mat n) : ℝ := d10_tight A

/-- Order 3: `b = (120, 60, 12, 1)`, `U = A·(b3·A2 + b1·I)`, `V = b2·A2 + b0·I`. -/
noncomputable def pade3 {n : ℕ} (A : Mat n) : Mat n × Mat n :=
  (A * ((1 : ℝ) • A2 A + (60 : ℝ) • (1 : Mat n)),
   (12 : ℝ) • A2 A + (120 : ℝ) • (1 : Mat n))

/-- Order 5: `b = (30240, 15120, 3360, 420, 30, 1)`. -/
noncomputable def pade5 {n : ℕ} (A : Mat n) : Mat n × Mat n :=
  (A * ((1 : ℝ) • A4 A + (420 : ℝ) • A2 A + (15120 : ℝ) • (1 : Mat n)),
   (30 : ℝ) • A4 A + (3360 : ℝ) • A2 A + (30240 : ℝ) • (1 : Mat n))

/-- Order 7: `b = (17297280, 8648640, 1995840, 277200, 25200, 1512, 56, 1)`. -/
noncomputable def pade7 {n : ℕ} (A : Mat n) : Mat n × Mat n :=
  (A * ((1 : ℝ) • A6 A + (1512 : ℝ) • A4 A + (277200 : ℝ) • A2 A +
      (8648640 : ℝ) • (1 : Mat n)),
   (56 : ℝ) • A6 A + (25200 : ℝ) • A4 A + (1995840 : ℝ) • A2 A +
      (17297280 : ℝ) • (1 : Mat n))

/-- Order 9: `b = (17643225600, 8821612800, 2075673600, 302702400, 30270240,
2162160, 110880, 3960, 90, 1)`. -/
noncomputable def pade9 {n : ℕ} (A : Mat n) : Mat n × Mat n :=
  (A * ((1 : ℝ) • A8 A + (3960 : ℝ) • A6 A + (2162160 : ℝ) • A4 A +
      (302702400 : ℝ) • A2 A + (8821612800 : ℝ) • (1 : Mat n)),
   (90 : ℝ) • A8 A + (110880 : ℝ) • A6 A + (30270240 : ℝ) • A4 A +
      (2075673600 : ℝ) • A2 A + (17643225600 : ℝ) • (1 : Mat n))

/-- Scaled order 13 `pade13_scaled(s)`: degree-13 evaluator on the scaled matrix `B = 2^-s·A`,
reusing the cached powers via `B2 = 2^(-2s)·A2`, `B4 = 2^(-4s)·A4`,
`B6 = 2^(-6s)·A6`. -/
noncomputable def pade13_scaled {n : ℕ} (A : Mat n) (s : ℤ) : Mat n × Mat n :=
  let B : Mat n := (2 : ℝ) ^ (-s) • A
  let B2 : Mat n := (2 : ℝ) ^ (-(2 * s)) • A2 A
  let B4 : Mat n := (2 : ℝ) ^ (-(4 * s)) • A4 A
  let B6 : Mat n := (2 : ℝ) ^ (-(6 * s)) • A6 A
  let U2 : Mat n := B6 * ((1 : ℝ) • B6 + (16380 : ℝ) • B4 + (40840800 : ℝ) • B2)
  let U : Mat n := B * (U2 + (33522128640 : ℝ) • B6 + (10559470521600 : ℝ) • B4 +
      (1187353796428800 : ℝ) • B2 + (32382376266240000 : ℝ) • (1 : Mat n))
  let V2 : Mat n := B6 * ((182 : ℝ) • B6 + (960960 : ℝ) • B4 + (1323241920 : ℝ) • B2)
  let V : Mat n := V2 + (670442572800 : ℝ) • B6 + (129060195264000 : ℝ) • B4 +
      (7771770303897600 : ℝ) • B2 + (64764752532480000 : ℝ) • (1 : Mat n)
  (U, V)

/-- Final solve `_solve_P_Q(U, V)`: `P = U + V`, `Q = -U + V`, then `np.linalg.solve(Q, P)`,
which raises (`NumericalFailure`) exactly when `Q` is singular. -/
noncomputable def _solve_P_Q {n : ℕ} (U V : Mat n) : Except String (Mat n) :=
  let P : Mat n := U + V
  let Q : Mat n := -U + V
  if Q.det = 0 then Except.error "Singular matrix"
  else Except.ok (Q⁻¹ * P)

/-- Driver `expm(A)`.  Tries Padé orders 3, 5, 7, 9 in turn, guarded by
the norm bounds `eta_1..eta_3` and `_ell`; otherwise uses order 13 with
scaling exponent `s` and undoes the scaling by `s` repeated squarings. -/
noncomputable def expm {n : ℕ} (A : Mat n) : Except String (Mat n) :=
  let eta_1 : ℝ := max (d4_loose A) (d6_loose A)
  if eta_1 < 1.495585217958292e-2 ∧ _ell A 3 = 0 then
    _solve_P_Q (pade3 A).1 (pade3 A).2
  else
  let eta_2 : ℝ := max (d4_tight A) (d6_loose A)
  if eta_2 < 2.539398330063230e-1 ∧ _ell A 5 = 0 then
    _solve_P_Q (pade5 A).1 (pade5 A).2
  else
  let eta_3 : ℝ := max (d6_tight A) (d8_loose A)
  if eta_3 < 9.504178996162932e-1 ∧ _ell A 7 = 0 then
    _solve_P_Q (pade7 A).1 (pade7 A).2
  else
  if eta_3 < 2.097847961257068 ∧ _ell A 9 = 0 then
    _solve_P_Q (pade9 A).1 (pade9 A).2
  else
  let eta_4 : ℝ := max (d8_loose A) (d10_loose A)
  let eta_5 : ℝ := min eta_3 eta_4
  let theta_13 : ℝ := 4.25
  let s0 : ℤ := if eta_5 = 0 then 0 else max ⌈Real.logb 2 (eta_5 / theta_13)⌉ 0
  let s : ℤ := s0 + _ell ((2 : ℝ) ^ (-s0) • A) 13
  Except.map (fun X => (fun Y : Mat n => Y * Y)^[s.toNat] X)
    (_solve_P_Q (pade13_scaled A s).1 (pade13_scaled A s).2)

/-- Guard of the order-3 branch: `eta_1 < 1.495585217958292e-2` and
`_ell(A, 3) == 0` (spec §4.3 step 1). -/
def usesDegree3 {n : ℕ} (A : Mat n) : Prop :=
  max (d4_loose A) (d6_loose A) < 1.495585217958292e-2 ∧ _ell A 3 = 0

/-- Guard of the order-5 branch: `eta_2 < 2.539398330063230e-1` and
`_ell(A, 5) == 0` (spec §4.3 step 2). -/
def usesDegree5 {n : ℕ} (A : Mat n) : Prop :=
  max (d4_tight A) (d6_loose A) < 2.539398330063230e-1 ∧ _ell A 5 = 0

/-- Guard of the order-7 branch: `eta_3 < 9.504178996162932e-1` and
`_ell(A, 7) == 0` (spec §4.3 step 3). -/
def usesDegree7 {n : ℕ} (A : Mat n) : Prop :=
  max (d6_tight A) (d8_loose A) < 9.504178996162932e-1 ∧ _ell A 7 = 0

/-- Guard of the order-9 branch: `eta_3 < 2.097847961257068` and
`_ell(A, 9) == 0` (spec §4.3 step 3). -/
def usesDegree9 {n : ℕ} (A : Mat n) : Prop :=
  max (d6_tight A) (d8_loose A) < 2.097847961257068 ∧ _ell A 9 = 0

/-- Bound `eta_3 = max(d6_tight, d8_loose)` (spec §4.3). -/
noncomputable def eta3 {n : ℕ} (A : Mat n) : ℝ := max (d6_tight A) (d8_loose A)

/-- Bound `eta_4 = max(d8_loose, d10_loose)` (spec §4.3 step 4). -/
noncomputable def eta4 {n : ℕ} (A : Mat n) : ℝ := max (d8_loose A) (d10_loose A)

/-- Bound `eta_5 = min(eta_3, eta_4)` (spec §4.3 step 4). -/
noncomputable def eta5 {n : ℕ} (A : Mat n) : ℝ := min (eta3 A) (eta4 A)

/-- Initial scaling exponent of the degree-13 branch: `0` when `eta_5 == 0`
(nilpotent special case), else `max(ceil(log2(eta_5 / theta_13)), 0)` with
`theta_13 = 4.25`. -/
noncomputable def scaleExp0 {n : ℕ} (A : Mat n) : ℤ :=
  if eta5 A = 0 then 0 else max ⌈Real.logb 2 (eta5 A / 4.25)⌉ 0

/-- Refined scaling exponent `s = s0 + _ell(2^-s0 · A, 13)`. -/
noncomputable def scaleExp {n : ℕ} (A : Mat n) : ℤ :=
  scaleExp0 A + _ell ((2 : ℝ) ^ (-scaleExp0 A) • A) 13

/-- Constant 1×1 matrix, used as a concrete evaluation point for witnesses. -/
def cMat (x : ℝ) : Mat 0 := Matrix.of fun _ _ => x

/-- Spec-side pair for the degree-13 evaluator, written with true matrix powers
of the scaled matrix `B` (spec §4.4): `U2 = B6·(b13·B6 + b11·B4 + b9·B2)`,
`U = B·(U2 + b7·B6 + b5·B4 + b3·B2 + b1·I)`, `V2 = B6·(b12·B6 + b10·B4 + b8·B2)`,
`V = V2 + b6·B6 + b4·B4 + b2·B2 + b0·I`. -/
noncomputable def pade13SpecUV {n : ℕ} (B : Mat n) : Mat n × Mat n :=
  (B * (B ^ 6 * ((1 : ℝ) • B ^ 6 + (16380 : ℝ) • B ^ 4 + (40840800 : ℝ) • B ^ 2) +
      (33522128640 : ℝ) • B ^ 6 + (10559470521600 : ℝ) • B ^ 4 +
      (1187353796428800 : ℝ) • B ^ 2 + (32382376266240000 : ℝ) • (1 : Mat n)),
   B ^ 6 * ((182 : ℝ) • B ^ 6 + (960960 : ℝ) • B ^ 4 + (1323241920 : ℝ) • B ^ 2) +
      (670442572800 : ℝ) • B ^ 6 + (129060195264000 : ℝ) • B ^ 4 +
      (7771770303897600 : ℝ) • B ^ 2 + (64764752532480000 : ℝ) • (1 : Mat n))

section SharedLemmas

variable {n : ℕ}

lemma A2_eq_pow (A : Mat n) : A2 A = A ^ 2 := by
  rw [A2, sq]

lemma A4_eq_pow (A : Mat n) : A4 A = A ^ 4 := by
  rw [A4, A2_eq_pow, ← pow_add]

lemma A6_eq_pow (A : Mat n) : A6 A = A ^ 6 := by
  rw [A6, A4_eq_pow, A2_eq_pow, ← pow_add]

lemma A8_eq_pow (A : Mat n) : A8 A = A ^ 8 := by
  rw [A8, A6_eq_pow, A2_eq_pow, ← pow_add]

lemma A10_eq_pow (A : Mat n) : A10 A = A ^ 10 := by
  rw [A10, A4_eq_pow, A6_eq_pow, ← pow_add]

lemma powerIter_eq_iterate (M : Mat n) (p : ℕ) (v : Fin (n + 1) → ℝ) :
    powerIter M p v = (fun w => M.mulVec w)^[p] v := by
  induction p generalizing v with
  | zero => rfl
  | succ p ih => rw [powerIter, ih, Function.iterate_succ_apply]

lemma npMax_const (x : ℝ) : npMax (fun _ : Fin (n + 1) => x) = x := by
  simp only [npMax]
  exact Finset.sup'_const Finset.univ_nonempty x

lemma onenorm_nonneg (A : Mat n) : 0 ≤ _onenorm A := by
  simp only [_onenorm]
  refine le_trans ?_ (Finset.le_sup' _ (Finset.mem_univ (0 : Fin (n + 1))))
  positivity

lemma eq_zero_of_onenorm_eq_zero (A : Mat n) (h : _onenorm A = 0) : A = 0 := by
  simp only [_onenorm] at h
  ext i j
  have hle : ∑ k, |A k j| ≤ 0 := by
    rw [← h]
    exact Finset.le_sup' (fun j => ∑ i, |A i j|) (Finset.mem_univ j)
  have hsum : ∑ k, |A k j| = 0 :=
    le_antisymm hle (Finset.sum_nonneg fun k _ => abs_nonneg _)
  have hk := (Finset.sum_eq_zero_iff_of_nonneg fun k _ => abs_nonneg (A k j)).1 hsum
    i (Finset.mem_univ i)
  simpa using hk

lemma two_zpow_smul_pow (A : Mat n) (s : ℤ) (k : ℕ) :
    ((2 : ℝ) ^ (-s) • A) ^ k = ((2 : ℝ) ^ (-s)) ^ k • A ^ k :=
  smul_pow _ _ _

lemma scaled_pow2 (A : Mat n) (s : ℤ) :
    ((2 : ℝ) ^ (-s) • A) ^ 2 = (2 : ℝ) ^ (-(2 * s)) • A2 A := by
  rw [A2_eq_pow, two_zpow_smul_pow, ← zpow_natCast ((2 : ℝ) ^ (-s)), ← zpow_mul]
  have h : -s * ((2 : ℕ) : ℤ) = -(2 * s) := by push_cast; ring
  rw [h]

lemma scaled_pow4 (A : Mat n) (s : ℤ) :
    ((2 : ℝ) ^ (-s) • A) ^ 4 = (2 : ℝ) ^ (-(4 * s)) • A4 A := by
  rw [A4_eq_pow, two_zpow_smul_pow, ← zpow_natCast ((2 : ℝ) ^ (-s)), ← zpow_mul]
  have h : -s * ((4 : ℕ) : ℤ) = -(4 * s) := by push_cast; ring
  rw [h]

lemma scaled_pow6 (A : Mat n) (s : ℤ) :
    ((2 : ℝ) ^ (-s) • A) ^ 6 = (2 : ℝ) ^ (-(6 * s)) • A6 A := by
  rw [A6_eq_pow, two_zpow_smul_pow, ← zpow_natCast ((2 : ℝ) ^ (-s)), ← zpow_mul]
  have h : -s * ((6 : ℕ) : ℤ) = -(6 * s) := by push_cast; ring
  rw [h]

lemma powerIter_fixed (M : Mat n) (v : Fin (n + 1) → ℝ) (hv : M.mulVec v = v)
    (p : ℕ) : powerIter M p v = v := by
  induction p with
  | zero => rfl
  | succ p ih => rw [powerIter, hv, ih]

lemma powerIter_zero_mat (p : ℕ) (v : Fin (n + 1) → ℝ) :
    powerIter (0 : Mat n) (p + 1) v = 0 := by
  induction p generalizing v with
  | zero => rw [powerIter, powerIter, Matrix.zero_mulVec]
  | succ p ih => rw [powerIter, ih]

lemma onenorm_matrix_power_nnm_zero (p : ℕ) :
    _onenorm_matrix_power_nnm (0 : Mat n) (p + 1) = 0 := by
  rw [_onenorm_matrix_power_nnm, Matrix.transpose_zero, powerIter_zero_mat]
  exact npMax_const 0

lemma matAbs_zero : matAbs (0 : Mat n) = 0 := by
  funext i j
  simp [matAbs]

lemma onenorm_zero : _onenorm (0 : Mat n) = 0 := by
  simp only [_onenorm]
  have h : (fun j : Fin (n + 1) => ∑ i, |(0 : Mat n) i j|) = fun _ => (0 : ℝ) := by
    funext j
    simp
  rw [h]
  exact Finset.sup'_const Finset.univ_nonempty 0

lemma ell_zero_matrix (m : ℕ) : _ell (0 : Mat n) m = 0 := by
  simp only [_ell, matAbs_zero, onenorm_matrix_power_nnm_zero]
  simp

end SharedLemmas

section CMatLemmas

lemma cMat_apply (x : ℝ) (i j : Fin (0 + 1)) : cMat x i j = x := rfl

lemma cMat_transpose (x : ℝ) : (cMat x).transpose = cMat x := rfl

lemma matAbs_cMat (x : ℝ) : matAbs (cMat x) = cMat |x| := by
  funext i j
  simp [matAbs, cMat_apply]

lemma cMat_mulVec_one (x : ℝ) : (cMat x).mulVec (fun _ => (1 : ℝ)) = fun _ => x := by
  funext i
  simp [Matrix.mulVec, Matrix.dotProduct, cMat_apply, Fin.sum_univ_one]

lemma onenorm_cMat (x : ℝ) : _onenorm (cMat x) = |x| := by
  simp only [_onenorm]
  have h : (fun j : Fin (0 + 1) => ∑ i, |cMat x i j|) = fun _ => |x| := by
    funext j
    simp [cMat_apply]
  rw [h]
  exact Finset.sup'_const Finset.univ_nonempty _

lemma nnm_matAbs_cMat_one : _onenorm_matrix_power_nnm (matAbs (cMat 1)) (2 * 1 + 1) ≠ 0 := by
  rw [matAbs_cMat, _onenorm_matrix_power_nnm, cMat_transpose,
    powerIter_fixed _ _ (by rw [show |(1 : ℝ)| = 1 from abs_one, cMat_mulVec_one]),
    npMax_const]
  norm_num

end CMatLemmas

/-- C10: the division computing `alpha` in `_ell` is guarded.  Whenever the
one-norm of `abs(A)^(2m+1)` is nonzero (so the early return of 0 is not
taken), the divisor factor `_onenorm A` is strictly positive, hence no
division by zero occurs. -/
theorem ell_division_guarded {n : ℕ} (A : Mat n) (m : ℕ) (hm : 0 < m)
    (h : _onenorm_matrix_power_nnm (matAbs A) (2 * m + 1) ≠ 0) :
    0 < _onenorm A := by
  rcases (onenorm_nonneg A).lt_or_eq with hpos | heq
  · exact hpos
  · exfalso
    apply h
    have hA : A = 0 := eq_zero_of_onenorm_eq_zero A heq.symm
    rw [hA, matAbs_zero, onenorm_matrix_power_nnm_zero]

/-- C10 witness: at the 1×1 all-ones matrix and `m = 1` the hypotheses hold and
the one-norm is positive. -/
theorem ell_division_guarded_witness :
    ((0 : ℕ) < 1 ∧ _onenorm_matrix_power_nnm (matAbs (cMat 1)) (2 * 1 + 1) ≠ 0) ∧
    0 < _onenorm (cMat 1) :=
  ⟨⟨by norm_num, nnm_matAbs_cMat_one⟩,
   ell_division_guarded (cMat 1) 1 (by norm_num) nnm_matAbs_cMat_one⟩

/-- C4: `_ell(A, m)` equals the guarded formula
`max(ceil(log2(alpha/u)/(2m)), 0)` with `c = choose(2m,m)·(2m+1)!`,
`u = 2^-53`, early return 0 when the norm of `abs(A)^(2m+1)` vanishes; and the
result is always a non-negative integer. -/
theorem ell_formula {n : ℕ} (A : Mat n) (m : ℕ) (hm : 0 < m) :
    _ell A m =
      (if _onenorm_matrix_power_nnm (matAbs A) (2 * m + 1) = 0 then 0
       else
         max ⌈Real.logb 2 ((_onenorm_matrix_power_nnm (matAbs A) (2 * m + 1) /
             (_onenorm A * ((Nat.choose (2 * m) m : ℝ) * (Nat.factorial (2 * m + 1) : ℝ)))) /
             2 ^ (-53 : ℤ)) / (2 * m : ℝ)⌉ 0) ∧
    0 ≤ _ell A m := by
  constructor
  · rfl
  · simp only [_ell]
    split_ifs with h
    · exact le_refl 0
    · exact le_max_right _ _

/-- C4 witness: instantiation at the 1×1 zero matrix with `m = 3`. -/
theorem ell_formula_witness :
    0 < 3 ∧
      (_ell (0 : Mat 0) 3 =
        (if _onenorm_matrix_power_nnm (matAbs (0 : Mat 0)) (2 * 3 + 1) = 0 then 0
         else
           max ⌈Real.logb 2 ((_onenorm_matrix_power_nnm (matAbs (0 : Mat 0)) (2 * 3 + 1) /
               (_onenorm (0 : Mat 0) *
                 ((Nat.choose (2 * 3) 3 : ℝ) * (Nat.factorial (2 * 3 + 1) : ℝ)))) /
               2 ^ (-53 : ℤ)) / (2 * 3 : ℝ)⌉ 0) ∧
       0 ≤ _ell (0 : Mat 0) 3) :=
  ⟨by norm_num, ell_formula (0 : Mat 0) 3 (by norm_num)⟩

lemma rat_nonneg_int_iff (p : ℚ) : (p.den = 1 ∧ 0 ≤ p) ↔ ∃ k : ℕ, (k : ℚ) = p := by
  constructor
  · rintro ⟨h1, h2⟩
    refine ⟨p.num.toNat, ?_⟩
    have hnum : ((p.num : ℤ) : ℚ) = p := (Rat.den_eq_one_iff p).1 h1
    rw [← hnum]
    have ht : (p.num.toNat : ℤ) = p.num := Int.toNat_of_nonneg (Rat.num_nonneg.2 h2)
    exact_mod_cast congrArg (fun z : ℤ => (z : ℚ)) ht
  · rintro ⟨k, hk⟩
    constructor
    · rw [← hk]
      exact Rat.den_natCast k
    · rw [← hk]
      exact Nat.cast_nonneg k

/-- C6: the checked `_onenorm_matrix_power_nnm` raises exactly when `p` is not
a non-negative integer or the matrix is not square. -/
theorem onenorm_matrix_power_nnm_checked_error_iff {r c : ℕ}
    (A : Matrix (Fin (r + 1)) (Fin (c + 1)) ℝ) (p : ℚ) :
    (∃ msg, onenormMatrixPowerNNMChecked A p = Except.error msg) ↔
      (¬ ∃ k : ℕ, (k : ℚ) = p) ∨ r ≠ c := by
  rw [onenormMatrixPowerNNMChecked]
  by_cases h1 : p.den ≠ 1 ∨ p < 0
  · rw [if_pos h1]
    constructor
    · intro _
      left
      intro hex
      rcases (rat_nonneg_int_iff p).2 hex with ⟨hden, hle⟩
      rcases h1 with hd | hlt
      · exact hd hden
      · exact absurd hle (not_le.2 hlt)
    · intro _
      exact ⟨_, rfl⟩
  · rw [if_neg h1]
    push_neg at h1
    have hex : ∃ k : ℕ, (k : ℚ) = p := (rat_nonneg_int_iff p).1 h1
    by_cases h2 : r = c
    · rw [dif_pos h2]
      constructor
      · rintro ⟨msg, hmsg⟩
        exact absurd hmsg (by simp)
      · rintro (hne | hne)
        · exact absurd hex hne
        · exact absurd h2 hne
    · rw [dif_neg h2]
      exact ⟨fun _ => Or.inr h2, fun _ => ⟨_, rfl⟩⟩

lemma not_nat_five_halves : ¬ ∃ k : ℕ, (k : ℚ) = (5 / 2 : ℚ) := by
  rintro ⟨k, hk⟩
  have h2 : ((2 * k : ℕ) : ℚ) = 5 := by
    push_cast
    rw [hk]
    norm_num
  have h5 : (2 * k : ℕ) = 5 := by exact_mod_cast h2
  omega

/-- C6 witness: `p = 5/2` is rejected on a square 1×1 input. -/
theorem onenorm_matrix_power_nnm_checked_error_iff_witness :
    (¬ ∃ k : ℕ, (k : ℚ) = (5 / 2 : ℚ)) ∧
    (∃ msg, onenormMatrixPowerNNMChecked (1 : Mat 0) (5 / 2 : ℚ) = Except.error msg) :=
  ⟨not_nat_five_halves,
   (onenorm_matrix_power_nnm_checked_error_iff (1 : Mat 0) (5 / 2 : ℚ)).2
     (Or.inl not_nat_five_halves)⟩

/-- C9: the helper's loose norm bounds coincide with the tight ones, and each
tight bound is `_onenorm(A^k) ** (1/k)` for `k ∈ {4, 6, 8, 10}`. -/
theorem d_loose_eq_d_tight {n : ℕ} (A : Mat n) :
    (d4_loose A = d4_tight A ∧ d4_tight A = _onenorm (A ^ 4) ^ ((1 : ℝ) / 4)) ∧
    (d6_loose A = d6_tight A ∧ d6_tight A = _onenorm (A ^ 6) ^ ((1 : ℝ) / 6)) ∧
    (d8_loose A = d8_tight A ∧ d8_tight A = _onenorm (A ^ 8) ^ ((1 : ℝ) / 8)) ∧
    (d10_loose A = d10_tight A ∧ d10_tight A = _onenorm (A ^ 10) ^ ((1 : ℝ) / 10)) := by
  refine ⟨⟨rfl, ?_⟩, ⟨rfl, ?_⟩, ⟨rfl, ?_⟩, ⟨rfl, ?_⟩⟩
  · rw [d4_tight, A4_eq_pow]
  · rw [d6_tight, A6_eq_pow]
  · rw [d8_tight, A8_eq_pow]
  · rw [d10_tight, A10_eq_pow]

/-- C9 witness: instantiation at the 1×1 identity matrix. -/
theorem d_loose_eq_d_tight_witness :
    (d4_loose (1 : Mat 0) = d4_tight (1 : Mat 0) ∧
      d4_tight (1 : Mat 0) = _onenorm ((1 : Mat 0) ^ 4) ^ ((1 : ℝ) / 4)) ∧
    (d6_loose (1 : Mat 0) = d6_tight (1 : Mat 0) ∧
      d6_tight (1 : Mat 0) = _onenorm ((1 : Mat 0) ^ 6) ^ ((1 : ℝ) / 6)) ∧
    (d8_loose (1 : Mat 0) = d8_tight (1 : Mat 0) ∧
      d8_tight (1 : Mat 0) = _onenorm ((1 : Mat 0) ^ 8) ^ ((1 : ℝ) / 8)) ∧
    (d10_loose (1 : Mat 0) = d10_tight (1 : Mat 0) ∧
      d10_tight (1 : Mat 0) = _onenorm ((1 : Mat 0) ^ 10) ^ ((1 : ℝ) / 10)) :=
  d_loose_eq_d_tight 1

/-- C7: the scaled powers reused by `pade13_scaled` are exactly the powers of
`B = 2^-s·A`, and the returned pair is the spec's `(U, V)` polynomial in `B`. -/
theorem pade13_scaled_eq_spec {n : ℕ} (A : Mat n) (s : ℤ) :
    ((2 : ℝ) ^ (-(2 * s)) • A2 A = ((2 : ℝ) ^ (-s) • A) ^ 2) ∧
    ((2 : ℝ) ^ (-(4 * s)) • A4 A = ((2 : ℝ) ^ (-s) • A) ^ 4) ∧
    ((2 : ℝ) ^ (-(6 * s)) • A6 A = ((2 : ℝ) ^ (-s) • A) ^ 6) ∧
    pade13_scaled A s = pade13SpecUV ((2 : ℝ) ^ (-s) • A) := by
  refine ⟨(scaled_pow2 A s).symm, (scaled_pow4 A s).symm, (scaled_pow6 A s).symm, ?_⟩
  simp only [pade13_scaled, pade13SpecUV]
  rw [scaled_pow2, scaled_pow4, scaled_pow6]

/-- C7 witness: instantiation at the 1×1 identity matrix with `s = 1`. -/
theorem pade13_scaled_eq_spec_witness :
    ((2 : ℝ) ^ (-(2 * (1 : ℤ))) • A2 (1 : Mat 0) = ((2 : ℝ) ^ (-(1 : ℤ)) • (1 : Mat 0)) ^ 2) ∧
    ((2 : ℝ) ^ (-(4 * (1 : ℤ))) • A4 (1 : Mat 0) = ((2 : ℝ) ^ (-(1 : ℤ)) • (1 : Mat 0)) ^ 4) ∧
    ((2 : ℝ) ^ (-(6 * (1 : ℤ))) • A6 (1 : Mat 0) = ((2 : ℝ) ^ (-(1 : ℤ)) • (1 : Mat 0)) ^ 6) ∧
    pade13_scaled (1 : Mat 0) 1 = pade13SpecUV ((2 : ℝ) ^ (-(1 : ℤ)) • (1 : Mat 0)) :=
  pade13_scaled_eq_spec 1 1

/-- C5: `_onenorm_matrix_power_nnm(A, p)` is `np.max` of the `p`-fold
application of `v ↦ Aᵀ·v` to the all-ones column vector. -/
theorem onenorm_matrix_power_nnm_eq_iterate {n : ℕ} (A : Mat n) (p : ℕ) :
    _onenorm_matrix_power_nnm A p =
      npMax ((fun v => A.transpose.mulVec v)^[p] fun _ => (1 : ℝ)) := by
  rw [_onenorm_matrix_power_nnm, powerIter_eq_iterate]

/-- C5 witness: instantiation at the 1×1 identity matrix with `p = 2`. -/
theorem onenorm_matrix_power_nnm_eq_iterate_witness :
    _onenorm_matrix_power_nnm (1 : Mat 0) 2 =
      npMax ((fun v => (1 : Mat 0).transpose.mulVec v)^[2] fun _ => (1 : ℝ)) :=
  onenorm_matrix_power_nnm_eq_iterate 1 2

/-- C8: `_solve_P_Q(U, V)` fails exactly when `Q = V - U` is singular, and any
returned `X` solves the linear system `Q·X = P` with `P = U + V`. -/
theorem solve_P_Q_spec {n : ℕ} (U V : Mat n) :
    ((∃ msg, _solve_P_Q U V = Except.error msg) ↔ (V - U).det = 0) ∧
    ∀ X, _solve_P_Q U V = Except.ok X → (V - U) * X = U + V := by
  have e : -U + V = V - U := neg_add_eq_sub U V
  simp only [_solve_P_Q]
  rw [e]
  by_cases h : (V - U).det = 0
  · rw [if_pos h]
    refine ⟨⟨fun _ => h, fun _ => ⟨_, rfl⟩⟩, fun X hX => absurd hX (by simp)⟩
  · rw [if_neg h]
    constructor
    · constructor
      · rintro ⟨msg, hmsg⟩
        exact absurd hmsg (by simp)
      · intro hdet
        exact absurd hdet h
    · intro X hX
      have hX' : (V - U)⁻¹ * (U + V) = X := by
        injection hX
      rw [← hX', ← Matrix.mul_assoc,
        Matrix.mul_nonsing_inv _ (isUnit_iff_ne_zero.mpr h), Matrix.one_mul]

lemma solve_P_Q_zero_one : _solve_P_Q (0 : Mat 0) 1 = Except.ok 1 := by
  simp only [_solve_P_Q, neg_zero, zero_add]
  rw [if_neg (by rw [Matrix.det_one]; norm_num),
    Matrix.nonsing_inv_mul 1 (by rw [Matrix.det_one]; exact isUnit_one)]

/-- C8 witness: at `U = 0`, `V = I` the solve succeeds and `(V-U)·X = U+V`. -/
theorem solve_P_Q_spec_witness :
    _solve_P_Q (0 : Mat 0) 1 = Except.ok 1 ∧ ((1 : Mat 0) - 0) * 1 = 0 + 1 :=
  ⟨solve_P_Q_zero_one, (solve_P_Q_spec (0 : Mat 0) 1).2 1 solve_P_Q_zero_one⟩

section ZeroMatrix

variable {n : ℕ}

lemma A2_zero : A2 (0 : Mat n) = 0 := by
  rw [A2, Matrix.mul_zero]

lemma A4_zero : A4 (0 : Mat n) = 0 := by
  rw [A4, A2_zero, Matrix.mul_zero]

lemma A6_zero : A6 (0 : Mat n) = 0 := by
  rw [A6, A2_zero, Matrix.mul_zero]

lemma d4_loose_zero : d4_loose (0 : Mat n) = 0 := by
  rw [d4_loose, d4_tight, A4_zero, onenorm_zero, Real.zero_rpow (by norm_num)]

lemma d6_loose_zero : d6_loose (0 : Mat n) = 0 := by
  rw [d6_loose, d6_tight, A6_zero, onenorm_zero, Real.zero_rpow (by norm_num)]

lemma usesDegree3_zero : usesDegree3 (0 : Mat n) :=
  ⟨by rw [d4_loose_zero, d6_loose_zero, max_self]; norm_num, ell_zero_matrix 3⟩

lemma pade3_zero : pade3 (0 : Mat n) = (0, (120 : ℝ) • (1 : Mat n)) := by
  rw [pade3, A2_zero, Matrix.zero_mul, smul_zero, zero_add]

end ZeroMatrix

/-- C1: `expm` selects the Padé degree by the strictly ordered decision
sequence, terminating at the first satisfied branch (3, then 5, then 7, then
9, otherwise 13 with scaling); for a chosen degree in `{3,5,7,9}` the result
is the linear solve of the `(U,V)` pair built on the unscaled matrix. -/
theorem expm_order_selection {n : ℕ} (A : Mat n) :
    (usesDegree3 A → expm A = _solve_P_Q (pade3 A).1 (pade3 A).2) ∧
    (¬usesDegree3 A → usesDegree5 A → expm A = _solve_P_Q (pade5 A).1 (pade5 A).2) ∧
    (¬usesDegree3 A → ¬usesDegree5 A → usesDegree7 A →
      expm A = _solve_P_Q (pade7 A).1 (pade7 A).2) ∧
    (¬usesDegree3 A → ¬usesDegree5 A → ¬usesDegree7 A → usesDegree9 A →
      expm A = _solve_P_Q (pade9 A).1 (pade9 A).2) ∧
    (¬usesDegree3 A → ¬usesDegree5 A → ¬usesDegree7 A → ¬usesDegree9 A →
      ∃ s : ℤ, expm A =
        Except.map (fun X => (fun Y : Mat n => Y * Y)^[s.toNat] X)
          (_solve_P_Q (pade13_scaled A s).1 (pade13_scaled A s).2)) := by
  refine ⟨fun h3 => ?_, fun h3 h5 => ?_, fun h3 h5 h7 => ?_, fun h3 h5 h7 h9 => ?_,
    fun h3 h5 h7 h9 => ?_⟩
  · have h3' : max (d4_loose A) (d6_loose A) < 1.495585217958292e-2 ∧ _ell A 3 = 0 := h3
    simp only [expm]
    rw [if_pos h3']
  · have h3' : ¬(max (d4_loose A) (d6_loose A) < 1.495585217958292e-2 ∧ _ell A 3 = 0) := h3
    have h5' : max (d4_tight A) (d6_loose A) < 2.539398330063230e-1 ∧ _ell A 5 = 0 := h5
    simp only [expm]
    rw [if_neg h3', if_pos h5']
  · have h3' : ¬(max (d4_loose A) (d6_loose A) < 1.495585217958292e-2 ∧ _ell A 3 = 0) := h3
    have h5' : ¬(max (d4_tight A) (d6_loose A) < 2.539398330063230e-1 ∧ _ell A 5 = 0) := h5
    have h7' : max (d6_tight A) (d8_loose A) < 9.504178996162932e-1 ∧ _ell A 7 = 0 := h7
    simp only [expm]
    rw [if_neg h3', if_neg h5', if_pos h7']
  · have h3' : ¬(max (d4_loose A) (d6_loose A) < 1.495585217958292e-2 ∧ _ell A 3 = 0) := h3
    have h5' : ¬(max (d4_tight A) (d6_loose A) < 2.539398330063230e-1 ∧ _ell A 5 = 0) := h5
    have h7' : ¬(max (d6_tight A) (d8_loose A) < 9.504178996162932e-1 ∧ _ell A 7 = 0) := h7
    have h9' : max (d6_tight A) (d8_loose A) < 2.097847961257068 ∧ _ell A 9 = 0 := h9
    simp only [expm]
    rw [if_neg h3', if_neg h5', if_neg h7', if_pos h9']
  · have h3' : ¬(max (d4_loose A) (d6_loose A) < 1.495585217958292e-2 ∧ _ell A 3 = 0) := h3
    have h5' : ¬(max (d4_tight A) (d6_loose A) < 2.539398330063230e-1 ∧ _ell A 5 = 0) := h5
    have h7' : ¬(max (d6_tight A) (d8_loose A) < 9.504178996162932e-1 ∧ _ell A 7 = 0) := h7
    have h9' : ¬(max (d6_tight A) (d8_loose A) < 2.097847961257068 ∧ _ell A 9 = 0) := h9
    simp only [expm]
    rw [if_neg h3', if_neg h5', if_neg h7', if_neg h9']
    exact ⟨_, rfl⟩

/-- C1 witness: at the 1×1 zero matrix the degree-3 guard holds and `expm`
returns the degree-3 solve. -/
theorem expm_order_selection_witness :
    usesDegree3 (0 : Mat 0) ∧
      expm (0 : Mat 0) = _solve_P_Q (pade3 (0 : Mat 0)).1 (pade3 (0 : Mat 0)).2 :=
  ⟨usesDegree3_zero, (expm_order_selection (0 : Mat 0)).1 usesDegree3_zero⟩

/-- C2: in the degree-13 branch, `expm` uses the refined scaling exponent
`s = s0 + _ell(2^-s0·A, 13)` with `s0 = 0` when `eta_5 == 0` and
`s0 = max(ceil(log2(eta_5/4.25)), 0)` otherwise, performs a single linear
solve of the scaled `(U,V)` pair, and squares the result exactly `s` times. -/
theorem expm_degree13_scaling {n : ℕ} (A : Mat n)
    (h3 : ¬usesDegree3 A) (h5 : ¬usesDegree5 A) (h7 : ¬usesDegree7 A)
    (h9 : ¬usesDegree9 A) :
    expm A =
      Except.map (fun X => (fun Y : Mat n => Y * Y)^[(scaleExp A).toNat] X)
        (_solve_P_Q (pade13_scaled A (scaleExp A)).1
          (pade13_scaled A (scaleExp A)).2) := by
  have h3' : ¬(max (d4_loose A) (d6_loose A) < 1.495585217958292e-2 ∧ _ell A 3 = 0) := h3
  have h5' : ¬(max (d4_tight A) (d6_loose A) < 2.539398330063230e-1 ∧ _ell A 5 = 0) := h5
  have h7' : ¬(max (d6_tight A) (d8_loose A) < 9.504178996162932e-1 ∧ _ell A 7 = 0) := h7
  have h9' : ¬(max (d6_tight A) (d8_loose A) < 2.097847961257068 ∧ _ell A 9 = 0) := h9
  simp only [expm]
  rw [if_neg h3', if_neg h5', if_neg h7', if_neg h9']
  simp only [scaleExp, scaleExp0, eta5, eta3, eta4]

/-- C3: `expm` of the zero matrix is the identity, exactly: the zero matrix
takes the degree-3 branch with `U = 0`, `V = 120·I`, and the solve yields `I`. -/
theorem expm_zero {n : ℕ} : expm (0 : Mat n) = Except.ok 1 := by
  have h3' : max (d4_loose (0 : Mat n)) (d6_loose (0 : Mat n)) < 1.495585217958292e-2 ∧
      _ell (0 : Mat n) 3 = 0 := usesDegree3_zero
  simp only [expm]
  rw [if_pos h3', pade3_zero]
  simp only [_solve_P_Q, neg_zero, zero_add]
  have hdet : ((120 : ℝ) • (1 : Mat n)).det ≠ 0 := by
    rw [Matrix.det_smul, Matrix.det_one, mul_one]
    exact pow_ne_zero _ (by norm_num)
  rw [if_neg hdet, Matrix.nonsing_inv_mul _ (isUnit_iff_ne_zero.mpr hdet)]

/-- C3 witness: instantiation at the 1×1 zero matrix. -/
theorem expm_zero_witness : expm (0 : Mat 0) = Except.ok 1 := @expm_zero 0

section CMat8

lemma cMat_mul (x y : ℝ) : cMat x * cMat y = cMat (x * y) := by
  ext i j
  rw [Matrix.mul_apply]
  simp [cMat_apply, Fin.sum_univ_one]

lemma A2_cMat (x : ℝ) : A2 (cMat x) = cMat (x * x) := by
  rw [A2, cMat_mul]

lemma A4_cMat (x : ℝ) : A4 (cMat x) = cMat (x * x * (x * x)) := by
  rw [A4, A2_cMat, cMat_mul]

lemma A6_cMat (x : ℝ) : A6 (cMat x) = cMat (x * x * (x * x) * (x * x)) := by
  rw [A6, A4_cMat, A2_cMat, cMat_mul]

lemma d4_tight_cMat8 : d4_tight (cMat 8) = 8 := by
  have h1 : |(8 : ℝ) * 8 * (8 * 8)| = (8 : ℝ) ^ (4 : ℕ) := by
    rw [abs_of_nonneg] <;> norm_num
  have h2 : (1 : ℝ) / 4 = (((4 : ℕ) : ℝ))⁻¹ := by norm_num
  rw [d4_tight, A4_cMat, onenorm_cMat, h1, h2]
  exact Real.pow_rpow_inv_natCast (by norm_num) (by norm_num)

lemma d6_tight_cMat8 : d6_tight (cMat 8) = 8 := by
  have h1 : |(8 : ℝ) * 8 * (8 * 8) * (8 * 8)| = (8 : ℝ) ^ (6 : ℕ) := by
    rw [abs_of_nonneg] <;> norm_num
  have h2 : (1 : ℝ) / 6 = (((6 : ℕ) : ℝ))⁻¹ := by norm_num
  rw [d6_tight, A6_cMat, onenorm_cMat, h1, h2]
  exact Real.pow_rpow_inv_natCast (by norm_num) (by norm_num)

lemma not_usesDegree3_cMat8 : ¬ usesDegree3 (cMat 8) := by
  rintro ⟨hlt, -⟩
  have h8 : (8 : ℝ) ≤ max (d4_loose (cMat 8)) (d6_loose (cMat 8)) := by
    rw [d4_loose, d4_tight_cMat8]
    exact le_max_left _ _
  have hcontra := lt_of_le_of_lt h8 hlt
  norm_num at hcontra

lemma not_usesDegree5_cMat8 : ¬ usesDegree5 (cMat 8) := by
  rintro ⟨hlt, -⟩
  have h8 : (8 : ℝ) ≤ max (d4_tight (cMat 8)) (d6_loose (cMat 8)) := by
    rw [d4_tight_cMat8]
    exact le_max_left _ _
  have hcontra := lt_of_le_of_lt h8 hlt
  norm_num at hcontra

lemma not_usesDegree7_cMat8 : ¬ usesDegree7 (cMat 8) := by
  rintro ⟨hlt, -⟩
  have h8 : (8 : ℝ) ≤ max (d6_tight (cMat 8)) (d8_loose (cMat 8)) := by
    rw [d6_tight_cMat8]
    exact le_max_left _ _
  have hcontra := lt_of_le_of_lt h8 hlt
  norm_num at hcontra

lemma not_usesDegree9_cMat8 : ¬ usesDegree9 (cMat 8) := by
  rintro ⟨hlt, -⟩
  have h8 : (8 : ℝ) ≤ max (d6_tight (cMat 8)) (d8_loose (cMat 8)) := by
    rw [d6_tight_cMat8]
    exact le_max_left _ _
  have hcontra := lt_of_le_of_lt h8 hlt
  norm_num at hcontra

end CMat8

/-- C2 witness: the 1×1 matrix `[8]` falls through all lower-degree guards,
and `expm` takes the degree-13 scaled path. -/
theorem expm_degree13_scaling_witness :
    (¬usesDegree3 (cMat 8) ∧ ¬usesDegree5 (cMat 8) ∧ ¬usesDegree7 (cMat 8) ∧
      ¬usesDegree9 (cMat 8)) ∧
    expm (cMat 8) =
      Except.map (fun X => (fun Y : Mat 0 => Y * Y)^[(scaleExp (cMat 8)).toNat] X)
        (_solve_P_Q (pade13_scaled (cMat 8) (scaleExp (cMat 8))).1
          (pade13_scaled (cMat 8) (scaleExp (cMat 8))).2) :=
  ⟨⟨not_usesDegree3_cMat8, not_usesDegree5_cMat8, not_usesDegree7_cMat8,
     not_usesDegree9_cMat8⟩,
   expm_degree13_scaling (cMat 8) not_usesDegree3_cMat8 not_usesDegree5_cMat8
     not_usesDegree7_cMat8 not_usesDegree9_cMat8⟩

end Bolt
